import Mathlib

/-!
Verification of the financial metric / technical indicator core of the
MCP financial-analysis server (`src/utils/calculate_metrics.py`).

The embedding is shallow: Python dicts become association lists, Python
floats become `ℚ` (and `ℝ` where the source computes fractional powers or
square roots), `None` becomes `Option.none`, and IEEE special values
(NaN, ±inf), which the pandas-based RSI computation can produce, are
modelled by the dedicated type `PFloat`.
-/

/-! ## Data model: FinancialDataBundle and MetricResult -/

/-- One statement source: a mapping field-name → numeric value
(`financial_data[src]` in the source). -/
abbrev SourceData := List (String × ℚ)

/-- A bundle maps statement-source names (`income_statement`, `balance_sheet`,
`cash_flow`, `market`) to field mappings. -/
abbrev FinancialDataBundle := List (String × SourceData)

/-- Dict lookup `m[key]` on a field mapping, `none` when the key is absent. -/
def lookupField (m : SourceData) (key : String) : Option ℚ :=
  (m.find? (fun p => p.1 = key)).map (fun p => p.2)

/-- Dict lookup `financial_data[src]`, `none` when the source is absent. -/
def lookupSource (d : FinancialDataBundle) (src : String) : Option SourceData :=
  (d.find? (fun p => p.1 = src)).map (fun p => p.2)

/-- The value of `financial_data[src][key]` when both `src in financial_data`
and `key in financial_data[src]` hold, otherwise `none`. -/
def fieldAt (d : FinancialDataBundle) (src key : String) : Option ℚ :=
  (lookupSource d src).bind (fun m => lookupField m key)

/-- Embeds `extract_value` (calculate_metrics.py:105-112): walk the preferred
sources in order; the first source that is present and contains `key` wins;
`None` when no listed source contains the key. -/
def extract_value (d : FinancialDataBundle) (key : String) : List String → Option ℚ
  | [] => none
  | s :: rest =>
    match fieldAt d s key with
    | some v => some v
    | none => extract_value d key rest

/-- Embeds the helper `safe_div` (calculate_metrics.py:139-140):
`num / denom if num is not None and denom not in (None, 0) else None`. -/
def safe_div (num denom : Option ℚ) : Option ℚ :=
  match num, denom with
  | some a, some b => if b = 0 then none else some (a / b)
  | _, _ => none

/-- Result dict of `calculate_financial_metric`:
keys `indicator`, `value`, and optionally `error`. -/
structure MetricResult where
  indicator : String
  value : Option ℚ
  error : Option String := none
deriving DecidableEq, Repr

/-! ## Per-metric value computations (the branches of
`calculate_financial_metric`, calculate_metrics.py:143-212) -/

/-- Python: `safe_div(revenue - cogs, revenue) if revenue is not None and cogs is not None else None`. -/
def grossMarginValue (d : FinancialDataBundle) : Option ℚ :=
  match extract_value d "revenue" ["income_statement"],
        extract_value d "cost_of_goods_sold" ["income_statement"] with
  | some r, some c => safe_div (some (r - c)) (some r)
  | _, _ => none

/-- Python: `safe_div(operating_income, revenue)`. -/
def operatingMarginValue (d : FinancialDataBundle) : Option ℚ :=
  safe_div (extract_value d "operating_income" ["income_statement"])
    (extract_value d "revenue" ["income_statement"])

/-- Python: `safe_div(net_income, revenue)`. -/
def netProfitMarginValue (d : FinancialDataBundle) : Option ℚ :=
  safe_div (extract_value d "net_income" ["income_statement"])
    (extract_value d "revenue" ["income_statement"])

/-- Direct `ebitda` if present, else `operating_income + depreciation +
amortization` when no term is missing, else `None`. -/
def ebitdaValue (d : FinancialDataBundle) : Option ℚ :=
  match extract_value d "ebitda" ["income_statement"] with
  | some v => some v
  | none =>
    match extract_value d "operating_income" ["income_statement"],
          extract_value d "depreciation" ["income_statement", "cash_flow"],
          extract_value d "amortization" ["income_statement", "cash_flow"] with
    | some a, some b, some c => some (a + b + c)
    | _, _, _ => none

/-- Python: `safe_div(total_liabilities, shareholders_equity)`. -/
def debtToEquityValue (d : FinancialDataBundle) : Option ℚ :=
  safe_div (extract_value d "total_liabilities" ["balance_sheet"])
    (extract_value d "shareholders_equity" ["balance_sheet"])

/-- Python: `safe_div(current_assets, current_liabilities)`. -/
def currentRatioValue (d : FinancialDataBundle) : Option ℚ :=
  safe_div (extract_value d "current_assets" ["balance_sheet"])
    (extract_value d "current_liabilities" ["balance_sheet"])

/-- Python: `safe_div(current_assets - inventory, current_liabilities)` when none of
the three inputs is missing, else `None`. -/
def quickRatioValue (d : FinancialDataBundle) : Option ℚ :=
  match extract_value d "current_assets" ["balance_sheet"],
        extract_value d "inventory" ["balance_sheet"],
        extract_value d "current_liabilities" ["balance_sheet"] with
  | some a, some inv, some l => safe_div (some (a - inv)) (some l)
  | _, _, _ => none

/-- Python: `safe_div(shareholders_equity, shares_outstanding)`; shares are looked up
in `market` first, then `income_statement`. -/
def bookValuePerShareValue (d : FinancialDataBundle) : Option ℚ :=
  safe_div (extract_value d "shareholders_equity" ["balance_sheet"])
    (extract_value d "shares_outstanding" ["market", "income_statement"])

/-- Python: `operating_cash_flow - capital_expenditures` when neither is missing. -/
def freeCashFlowValue (d : FinancialDataBundle) : Option ℚ :=
  match extract_value d "operating_cash_flow" ["cash_flow"],
        extract_value d "capital_expenditures" ["cash_flow"] with
  | some ocf, some capex => some (ocf - capex)
  | _, _ => none

/-- Python: `safe_div(operating_cash_flow, revenue)`. -/
def cashFlowMarginValue (d : FinancialDataBundle) : Option ℚ :=
  safe_div (extract_value d "operating_cash_flow" ["cash_flow"])
    (extract_value d "revenue" ["income_statement"])

/-- Python: `safe_div(net_income, shareholders_equity)`. -/
def roeValue (d : FinancialDataBundle) : Option ℚ :=
  safe_div (extract_value d "net_income" ["income_statement"])
    (extract_value d "shareholders_equity" ["balance_sheet"])

/-- Python: `safe_div(net_income, total_assets)`. -/
def roaValue (d : FinancialDataBundle) : Option ℚ :=
  safe_div (extract_value d "net_income" ["income_statement"])
    (extract_value d "total_assets" ["balance_sheet"])

/-- The intermediate `eps = safe_div(net_income, shares_outstanding)` of the
`pe_ratio` branch. -/
def epsOf (d : FinancialDataBundle) : Option ℚ :=
  safe_div (extract_value d "net_income" ["income_statement"])
    (extract_value d "shares_outstanding" ["market", "income_statement"])

/-- Python: `safe_div(price, eps) if eps not in (None, 0) else None`. -/
def peRatioValue (d : FinancialDataBundle) : Option ℚ :=
  if epsOf d = none ∨ epsOf d = some 0 then none
  else safe_div (extract_value d "price" ["market"]) (epsOf d)

/-- The intermediate `book_value_per_share = safe_div(shareholders_equity,
shares_outstanding)` of the `pb_ratio` branch. -/
def bvpsOf (d : FinancialDataBundle) : Option ℚ :=
  safe_div (extract_value d "shareholders_equity" ["balance_sheet"])
    (extract_value d "shares_outstanding" ["market", "income_statement"])

/-- Python: `safe_div(price, book_value_per_share) if book_value_per_share not in
(None, 0) else None`. -/
def pbRatioValue (d : FinancialDataBundle) : Option ℚ :=
  if bvpsOf d = none ∨ bvpsOf d = some 0 then none
  else safe_div (extract_value d "price" ["market"]) (bvpsOf d)

/-- Python: `safe_div(dividends_per_share, price)`; dividends are looked up in
`income_statement` first, then `market`. -/
def dividendYieldValue (d : FinancialDataBundle) : Option ℚ :=
  safe_div (extract_value d "dividends_per_share" ["income_statement", "market"])
    (extract_value d "price" ["market"])

/-- Embeds `calculate_financial_metric` (calculate_metrics.py:114-215): the
if/elif chain keyed on the indicator name, with the final else returning the
unknown-indicator error result. -/
def calculate_financial_metric (d : FinancialDataBundle) (indicator : String) : MetricResult :=
  if indicator = "gross_margin" then ⟨indicator, grossMarginValue d, none⟩
  else if indicator = "operating_margin" then ⟨indicator, operatingMarginValue d, none⟩
  else if indicator = "net_profit_margin" then ⟨indicator, netProfitMarginValue d, none⟩
  else if indicator = "ebitda" then ⟨indicator, ebitdaValue d, none⟩
  else if indicator = "debt_to_equity" then ⟨indicator, debtToEquityValue d, none⟩
  else if indicator = "current_ratio" then ⟨indicator, currentRatioValue d, none⟩
  else if indicator = "quick_ratio" then ⟨indicator, quickRatioValue d, none⟩
  else if indicator = "book_value_per_share" then ⟨indicator, bookValuePerShareValue d, none⟩
  else if indicator = "free_cash_flow" then ⟨indicator, freeCashFlowValue d, none⟩
  else if indicator = "cash_flow_margin" then ⟨indicator, cashFlowMarginValue d, none⟩
  else if indicator = "roe" then ⟨indicator, roeValue d, none⟩
  else if indicator = "roa" then ⟨indicator, roaValue d, none⟩
  else if indicator = "pe_ratio" then ⟨indicator, peRatioValue d, none⟩
  else if indicator = "pb_ratio" then ⟨indicator, pbRatioValue d, none⟩
  else if indicator = "dividend_yield" then ⟨indicator, dividendYieldValue d, none⟩
  else ⟨indicator, none, some "Unknown indicator"⟩

/-- The 15 indicator names handled by the if/elif chain. -/
def supportedIndicators : List String :=
  ["gross_margin", "operating_margin", "net_profit_margin", "ebitda",
   "debt_to_equity", "current_ratio", "quick_ratio", "book_value_per_share",
   "free_cash_flow", "cash_flow_margin", "roe", "roa", "pe_ratio", "pb_ratio",
   "dividend_yield"]

/-! ## Claim C1: missing required inputs -/

/-- A field is missing when no permitted source provides it. -/
def missing (d : FinancialDataBundle) (key : String) (srcs : List String) : Bool :=
  (extract_value d key srcs).isNone

/-- Formalises the claim hypothesis "some required field of the indicator is
absent from every permitted source", with the fields and permitted sources of
each indicator read off the extraction calls of `calculate_financial_metric`.
For `ebitda` the requirement is conditional, matching the source: the fallback
terms are required only when the direct `ebitda` field is itself absent. -/
def requiredFieldMissing (d : FinancialDataBundle) (indicator : String) : Bool :=
  if indicator = "gross_margin" then
    missing d "revenue" ["income_statement"] ||
    missing d "cost_of_goods_sold" ["income_statement"]
  else if indicator = "operating_margin" then
    missing d "revenue" ["income_statement"] ||
    missing d "operating_income" ["income_statement"]
  else if indicator = "net_profit_margin" then
    missing d "revenue" ["income_statement"] ||
    missing d "net_income" ["income_statement"]
  else if indicator = "ebitda" then
    missing d "ebitda" ["income_statement"] &&
    (missing d "operating_income" ["income_statement"] ||
     missing d "depreciation" ["income_statement", "cash_flow"] ||
     missing d "amortization" ["income_statement", "cash_flow"])
  else if indicator = "debt_to_equity" then
    missing d "total_liabilities" ["balance_sheet"] ||
    missing d "shareholders_equity" ["balance_sheet"]
  else if indicator = "current_ratio" then
    missing d "current_assets" ["balance_sheet"] ||
    missing d "current_liabilities" ["balance_sheet"]
  else if indicator = "quick_ratio" then
    missing d "current_assets" ["balance_sheet"] ||
    missing d "inventory" ["balance_sheet"] ||
    missing d "current_liabilities" ["balance_sheet"]
  else if indicator = "book_value_per_share" then
    missing d "shareholders_equity" ["balance_sheet"] ||
    missing d "shares_outstanding" ["market", "income_statement"]
  else if indicator = "free_cash_flow" then
    missing d "operating_cash_flow" ["cash_flow"] ||
    missing d "capital_expenditures" ["cash_flow"]
  else if indicator = "cash_flow_margin" then
    missing d "operating_cash_flow" ["cash_flow"] ||
    missing d "revenue" ["income_statement"]
  else if indicator = "roe" then
    missing d "net_income" ["income_statement"] ||
    missing d "shareholders_equity" ["balance_sheet"]
  else if indicator = "roa" then
    missing d "net_income" ["income_statement"] ||
    missing d "total_assets" ["balance_sheet"]
  else if indicator = "pe_ratio" then
    missing d "price" ["market"] ||
    missing d "net_income" ["income_statement"] ||
    missing d "shares_outstanding" ["market", "income_statement"]
  else if indicator = "pb_ratio" then
    missing d "price" ["market"] ||
    missing d "shareholders_equity" ["balance_sheet"] ||
    missing d "shares_outstanding" ["market", "income_statement"]
  else if indicator = "dividend_yield" then
    missing d "dividends_per_share" ["income_statement", "market"] ||
    missing d "price" ["market"]
  else false


/-! ## Claim C2: null-or-zero denominators -/

/-- The denominator fed to the outermost `safe_div` of each metric's formula,
read off the source: `some dv` when the metric divides (with `dv` the
denominator, itself an optional value), `none` for the two metrics
(`ebitda`, `free_cash_flow`) whose formulas contain no division. For
`pe_ratio`/`pb_ratio` the denominator is the computed `eps` /
`book_value_per_share` intermediate. -/
def denominatorOf (d : FinancialDataBundle) (indicator : String) : Option (Option ℚ) :=
  if indicator = "gross_margin" then some (extract_value d "revenue" ["income_statement"])
  else if indicator = "operating_margin" then
    some (extract_value d "revenue" ["income_statement"])
  else if indicator = "net_profit_margin" then
    some (extract_value d "revenue" ["income_statement"])
  else if indicator = "ebitda" then none
  else if indicator = "debt_to_equity" then
    some (extract_value d "shareholders_equity" ["balance_sheet"])
  else if indicator = "current_ratio" then
    some (extract_value d "current_liabilities" ["balance_sheet"])
  else if indicator = "quick_ratio" then
    some (extract_value d "current_liabilities" ["balance_sheet"])
  else if indicator = "book_value_per_share" then
    some (extract_value d "shares_outstanding" ["market", "income_statement"])
  else if indicator = "free_cash_flow" then none
  else if indicator = "cash_flow_margin" then
    some (extract_value d "revenue" ["income_statement"])
  else if indicator = "roe" then
    some (extract_value d "shareholders_equity" ["balance_sheet"])
  else if indicator = "roa" then
    some (extract_value d "total_assets" ["balance_sheet"])
  else if indicator = "pe_ratio" then some (epsOf d)
  else if indicator = "pb_ratio" then some (bvpsOf d)
  else if indicator = "dividend_yield" then
    some (extract_value d "price" ["market"])
  else none


/-- The spec's own example bundle: `shares_outstanding` present in both
`market` and `income_statement`. -/
def sharesBundle : FinancialDataBundle :=
  [("market", [("shares_outstanding", 100)]),
   ("income_statement", [("shares_outstanding", 50)])]



/-! ## Technical indicator engine (`calculate_technical_indicators`,
calculate_metrics.py:30-67)

Price series are lists of rationals (idealised floats). Rolling statistics
produce leading undefined entries, modelled as `Option.none` (pandas emits
NaN there). The RSI computation can also produce genuine IEEE special values
through division of averages, so its value space is the dedicated `PFloat`
type below. -/

/-- Embeds `prices.rolling(window=w).mean()` (pandas semantics, used at
calculate_metrics.py:44 and for the RSI averages): entry `i` is the mean of
the trailing `w` points once `w` observations are available (`w ≤ i+1`), and
the undefined sentinel before that. pandas requires `w ≥ 1`. -/
def rollingMean (xs : List ℚ) (w : ℕ) : List (Option ℚ) :=
  (List.range xs.length).map (fun i =>
    if w ≤ i + 1 then some (((xs.drop (i + 1 - w)).take w).sum / w) else none)

/-- The recursive core of span-based EMA with `adjust=False`:
each output is `α * x + (1 - α) * prev`. -/
def emaFrom (α prev : ℚ) : List ℚ → List ℚ
  | [] => []
  | y :: ys => (α * y + (1 - α) * prev) :: emaFrom α (α * y + (1 - α) * prev) ys

/-- Embeds `prices.ewm(span=w, adjust=False).mean()` (calculate_metrics.py:46):
seeded with the first value, smoothing factor `α = 2/(w+1)`, defined at every
index. -/
def emaList (xs : List ℚ) (span : ℕ) : List ℚ :=
  match xs with
  | [] => []
  | x :: rest => x :: emaFrom (2 / ((span : ℚ) + 1)) x rest

/-- The MACD line `ema12 - ema26` (calculate_metrics.py:55-57); the
subtraction of two equal-length pandas Series is elementwise. -/
def macdLine (xs : List ℚ) : List ℚ :=
  List.zipWith (fun a b => a - b) (emaList xs 12) (emaList xs 26)

/-- Idealised pandas/numpy float for the RSI pipeline: a rational, NaN, or a
signed infinity (rounding is ignored; signed zero is collapsed to `num 0`). -/
inductive PFloat
  | nan
  | inf
  | ninf
  | num (q : ℚ)
deriving DecidableEq, Repr

/-- IEEE-style addition on `PFloat`. -/
def PFloat.add : PFloat → PFloat → PFloat
  | nan, _ => nan
  | _, nan => nan
  | inf, ninf => nan
  | ninf, inf => nan
  | inf, _ => inf
  | _, inf => inf
  | ninf, _ => ninf
  | _, ninf => ninf
  | num a, num b => num (a + b)

/-- IEEE-style subtraction on `PFloat`. -/
def PFloat.sub : PFloat → PFloat → PFloat
  | nan, _ => nan
  | _, nan => nan
  | inf, inf => nan
  | ninf, ninf => nan
  | inf, _ => inf
  | ninf, _ => ninf
  | _, inf => ninf
  | _, ninf => inf
  | num a, num b => num (a - b)

/-- IEEE-style division on `PFloat`: dividing a nonzero number by zero gives a
signed infinity, `0/0` gives NaN (numpy behaviour for float Series). -/
def PFloat.div : PFloat → PFloat → PFloat
  | nan, _ => nan
  | _, nan => nan
  | inf, inf => nan
  | inf, ninf => nan
  | ninf, inf => nan
  | ninf, ninf => nan
  | inf, num b => if b < 0 then ninf else inf
  | ninf, num b => if b < 0 then inf else ninf
  | num _, inf => num 0
  | num _, ninf => num 0
  | num a, num b =>
    if b = 0 then (if a = 0 then nan else if 0 < a then inf else ninf)
    else num (a / b)

/-- Embeds `prices.diff()`: undefined at index 0, `x[i] - x[i-1]` after. -/
def deltaList : List ℚ → List (Option ℚ)
  | [] => []
  | x :: rest => none :: List.zipWith (fun p c => some (c - p)) (x :: rest) rest

/-- Embeds `delta.where(delta > 0, 0)` (calculate_metrics.py:49): positive
deltas kept, everything else — including the leading NaN of `diff`, whose
comparison with 0 is False — replaced by 0. -/
def gainSeries (xs : List ℚ) : List ℚ :=
  (deltaList xs).map (fun d =>
    match d with
    | some q => if 0 < q then q else 0
    | none => 0)

/-- Embeds `-delta.where(delta < 0, 0)` (calculate_metrics.py:50): negative
deltas kept and negated, everything else replaced by 0. -/
def lossSeries (xs : List ℚ) : List ℚ :=
  (deltaList xs).map (fun d =>
    match d with
    | some q => if q < 0 then -q else 0
    | none => 0)

/-- Division of two optional rolling averages as pandas Series division:
an undefined (NaN) operand propagates, numeric operands divide by IEEE rules. -/
def optDiv (g l : Option ℚ) : PFloat :=
  match g, l with
  | some a, some b => PFloat.div (.num a) (.num b)
  | _, _ => PFloat.nan

/-- Embeds the RSI pipeline (calculate_metrics.py:47-53):
`rs = avg_gain / avg_loss`, `rsi = 100 - 100 / (1 + rs)` with simple rolling
means over `window` points. -/
def rsiList (xs : List ℚ) (w : ℕ) : List PFloat :=
  (List.zipWith optDiv (rollingMean (gainSeries xs) w) (rollingMean (lossSeries xs) w)).map
    (fun rs => PFloat.sub (.num 100) (PFloat.div (.num 100) (PFloat.add (.num 1) rs)))

/-- Joins a list of optional values; `none` if any entry is undefined. -/
def allSome : List (Option ℚ) → Option (List ℚ)
  | [] => some []
  | none :: _ => none
  | some x :: rest => (allSome rest).map (fun l => x :: l)

/-- Embeds `prices.pct_change()` (calculate_metrics.py:62): undefined at
index 0 and collapsed to the undefined sentinel where the previous price is 0
(pandas produces ±inf or NaN there; any rolling window containing such an
entry has an undefined standard deviation, so the collapse is observationally
equal at the volatility output). -/
def pctChange (xs : List ℚ) : List (Option ℚ) :=
  (List.range xs.length).map (fun i =>
    if i = 0 then none
    else
      match xs[i - 1]?, xs[i]? with
      | some p, some c => if p = 0 then none else some (c / p - 1)
      | _, _ => none)

/-- Sample standard deviation (pandas `std()`, `ddof=1`). -/
noncomputable def sampleStd (vs : List ℚ) : ℝ :=
  Real.sqrt (((vs.map (fun v => ((v : ℝ) - (vs.sum : ℝ) / vs.length) ^ 2)).sum) /
    ((vs.length : ℝ) - 1))

/-- Embeds `.rolling(window=w).std()` over an optional-valued series: defined
once `w` observations (all defined) are in the window and `w ≥ 2` (with
`ddof=1`, a single observation has undefined sample deviation). -/
noncomputable def rollingStd (xs : List (Option ℚ)) (w : ℕ) : List (Option ℝ) :=
  (List.range xs.length).map (fun i =>
    if w ≤ i + 1 ∧ 2 ≤ w then
      match allSome ((xs.drop (i + 1 - w)).take w) with
      | some vs => some (sampleStd vs)
      | none => none
    else none)

/-- Result dict of `calculate_technical_indicators`: the branch taken fills
its key(s); the final else fills only `error`. -/
structure TechResult where
  sma : Option (List (Option ℚ)) := none
  ema : Option (List ℚ) := none
  rsi : Option (List PFloat) := none
  macd : Option (List ℚ) := none
  macd_signal : Option (List ℚ) := none
  volatility : Option (List (Option ℝ)) := none
  error : Option String := none

/-- Embeds `calculate_technical_indicators` (calculate_metrics.py:30-67): the
if/elif chain on the indicator name; the `macd` branch uses the fixed spans
12, 26 and 9 and never reads `window`. -/
noncomputable def calculate_technical_indicators (price_data : List ℚ) (indicator : String)
    (window : ℕ := 14) : TechResult :=
  if indicator = "sma" then { sma := some (rollingMean price_data window) }
  else if indicator = "ema" then { ema := some (emaList price_data window) }
  else if indicator = "rsi" then { rsi := some (rsiList price_data window) }
  else if indicator = "macd" then
    { macd := some (macdLine price_data),
      macd_signal := some (emaList (macdLine price_data) 9) }
  else if indicator = "volatility" then
    { volatility := some (rollingStd (pctChange price_data) window) }
  else { error := some ("Unknown indicator: " ++ indicator) }



/-! ## Growth rate calculator (`calculate_growth_rates`,
calculate_metrics.py:4-28)

On a numeric series no exception can occur, so the try/except of the source
is invisible here and the result always carries the two keys
`annualized_growth_rate` and `period_growth_rates`. -/

/-- Result dict of `calculate_growth_rates` on numeric input. -/
structure GrowthResult where
  annualized_growth_rate : Option ℝ
  period_growth_rates : List (Option ℚ)

/-- The loop of calculate_metrics.py:14-21: for each adjacent pair,
`(curr - prev) / abs(prev)` when `prev != 0`, else `None`. -/
def periodGrowthRates (series : List ℚ) : List (Option ℚ) :=
  List.zipWith (fun prev curr => if prev ≠ 0 then some ((curr - prev) / |prev|) else none)
    series series.tail

/-- calculate_metrics.py:22-25:
`(series[-1] / series[0]) ** (1/(len(series)-1)) - 1` when `len(series) > 1`
and `series[0] != 0`, else `None`. The real power embeds Python's `**`; for a
negative base and fractional exponent the source's numeric stack leaves the
spec's reference behaviour undefined (spec section 9), and the embedding adopts
the `Real.rpow` convention there. -/
noncomputable def annualizedGrowthRate (series : List ℚ) : Option ℝ :=
  if 1 < series.length ∧ series.getD 0 0 ≠ 0 then
    some (((series.getLastD 0 / series.getD 0 0 : ℚ) : ℝ) ^
      ((1 : ℝ) / ((series.length : ℝ) - 1)) - 1)
  else none

/-- Embeds `calculate_growth_rates` (calculate_metrics.py:4-28). -/
noncomputable def calculate_growth_rates (series : List ℚ) : GrowthResult :=
  { annualized_growth_rate := annualizedGrowthRate series
    period_growth_rates := periodGrowthRates series }



/-! ## Dynamic-typed model of the metric resolver

`calculate_financial_metric` (unlike `calculate_growth_rates` and
`calculate_technical_indicators`, whose bodies are wrapped in
`try/except`) contains no exception handler. To examine its behaviour on
malformed input shapes the resolver is re-embedded over dynamically typed
values; `Except.error` models a Python exception escaping the function
uncaught (there is no handler to convert it into a structured result). -/

/-- A dynamically typed Python value as it can appear inside the
`financial_data` dict: a number or a nested dict. -/
inductive PyVal
  | num (q : ℚ)
  | dict (entries : List (String × PyVal))

/-- Dict lookup on dynamically typed entries. -/
def pyLookup (entries : List (String × PyVal)) (key : String) : Option PyVal :=
  (entries.find? (fun p => p.1 = key)).map (fun p => p.2)

/-- Python: `extract_value` over dynamic values: Python's `key in financial_data[src]`
raises `TypeError` when `financial_data[src]` is a number (membership test on
a non-container). -/
def extract_value_dyn (financial_data : List (String × PyVal)) (key : String) :
    List String → Except String (Option PyVal)
  | [] => .ok none
  | s :: rest =>
    match pyLookup financial_data s with
    | none => extract_value_dyn financial_data key rest
    | some (.dict entries) =>
      match pyLookup entries key with
      | some x => .ok (some x)
      | none => extract_value_dyn financial_data key rest
    | some (.num _) => .error "TypeError"

/-- Python `a - b` on dynamic values: `TypeError` unless both are numbers. -/
def pySub (a b : PyVal) : Except String ℚ :=
  match a, b with
  | .num x, .num y => .ok (x - y)
  | _, _ => .error "TypeError"

/-- Python `a + b` on dynamic values. -/
def pyAdd (a b : PyVal) : Except String ℚ :=
  match a, b with
  | .num x, .num y => .ok (x + y)
  | _, _ => .error "TypeError"

/-- Python: `operating_income + depreciation + amortization`, left to right. -/
def pyAdd3 (a b c : PyVal) : Except String ℚ :=
  match pyAdd a b, c with
  | .ok x, .num z => .ok (x + z)
  | .ok _, .dict _ => .error "TypeError"
  | .error e, _ => .error e

/-- Python `v == 0` on a dynamic value (a dict simply compares unequal). -/
def pyEqZero (v : PyVal) : Bool :=
  match v with
  | .num q => q = 0
  | .dict _ => false

/-- Python: `safe_div` over dynamic values: the guard `denom not in (None, 0)` never
raises, but the division itself raises `TypeError` on a dict operand. -/
def safe_div_dyn (num denom : Option PyVal) : Except String (Option ℚ) :=
  match num, denom with
  | some a, some b =>
    if pyEqZero b then .ok none
    else
      match a, b with
      | .num x, .num y => .ok (some (x / y))
      | _, _ => .error "TypeError"
  | _, _ => .ok none

/-- Result dict of the dynamic resolver (the `ebitda` branch can return any
extracted value unchanged, hence `Option PyVal`). -/
structure MetricResultDyn where
  indicator : String
  value : Option PyVal
  error : Option String := none

/-- Python: `calculate_financial_metric` over dynamically typed bundles, with the
exception behaviour of each operation made explicit. No branch contains a
handler, so any raised `TypeError` escapes the whole function. -/
def calculate_financial_metric_dyn (d : List (String × PyVal)) (indicator : String) :
    Except String MetricResultDyn :=
  if indicator = "gross_margin" then do
    let revenue ← extract_value_dyn d "revenue" ["income_statement"]
    let cogs ← extract_value_dyn d "cost_of_goods_sold" ["income_statement"]
    let vq ←
      match revenue, cogs with
      | some r, some c => do
        let diff ← pySub r c
        safe_div_dyn (some (.num diff)) (some r)
      | _, _ => pure none
    pure ⟨indicator, vq.map PyVal.num, none⟩
  else if indicator = "operating_margin" then do
    let revenue ← extract_value_dyn d "revenue" ["income_statement"]
    let oi ← extract_value_dyn d "operating_income" ["income_statement"]
    let vq ← safe_div_dyn oi revenue
    pure ⟨indicator, vq.map PyVal.num, none⟩
  else if indicator = "net_profit_margin" then do
    let revenue ← extract_value_dyn d "revenue" ["income_statement"]
    let ni ← extract_value_dyn d "net_income" ["income_statement"]
    let vq ← safe_div_dyn ni revenue
    pure ⟨indicator, vq.map PyVal.num, none⟩
  else if indicator = "ebitda" then do
    let e ← extract_value_dyn d "ebitda" ["income_statement"]
    match e with
    | some v => pure ⟨indicator, some v, none⟩
    | none => do
      let oi ← extract_value_dyn d "operating_income" ["income_statement"]
      let dep ← extract_value_dyn d "depreciation" ["income_statement", "cash_flow"]
      let am ← extract_value_dyn d "amortization" ["income_statement", "cash_flow"]
      match oi, dep, am with
      | some a, some b, some c => do
        let sum3 ← pyAdd3 a b c
        pure ⟨indicator, some (.num sum3), none⟩
      | _, _, _ => pure ⟨indicator, none, none⟩
  else if indicator = "debt_to_equity" then do
    let tl ← extract_value_dyn d "total_liabilities" ["balance_sheet"]
    let se ← extract_value_dyn d "shareholders_equity" ["balance_sheet"]
    let vq ← safe_div_dyn tl se
    pure ⟨indicator, vq.map PyVal.num, none⟩
  else if indicator = "current_ratio" then do
    let ca ← extract_value_dyn d "current_assets" ["balance_sheet"]
    let cl ← extract_value_dyn d "current_liabilities" ["balance_sheet"]
    let vq ← safe_div_dyn ca cl
    pure ⟨indicator, vq.map PyVal.num, none⟩
  else if indicator = "quick_ratio" then do
    let ca ← extract_value_dyn d "current_assets" ["balance_sheet"]
    let inv ← extract_value_dyn d "inventory" ["balance_sheet"]
    let cl ← extract_value_dyn d "current_liabilities" ["balance_sheet"]
    let vq ←
      match ca, inv, cl with
      | some a, some b, some c => do
        let diff ← pySub a b
        safe_div_dyn (some (.num diff)) (some c)
      | _, _, _ => pure none
    pure ⟨indicator, vq.map PyVal.num, none⟩
  else if indicator = "book_value_per_share" then do
    let se ← extract_value_dyn d "shareholders_equity" ["balance_sheet"]
    let sh ← extract_value_dyn d "shares_outstanding" ["market", "income_statement"]
    let vq ← safe_div_dyn se sh
    pure ⟨indicator, vq.map PyVal.num, none⟩
  else if indicator = "free_cash_flow" then do
    let ocf ← extract_value_dyn d "operating_cash_flow" ["cash_flow"]
    let capex ← extract_value_dyn d "capital_expenditures" ["cash_flow"]
    let vq ←
      match ocf, capex with
      | some a, some b => do
        let diff ← pySub a b
        pure (some diff)
      | _, _ => pure none
    pure ⟨indicator, vq.map PyVal.num, none⟩
  else if indicator = "cash_flow_margin" then do
    let ocf ← extract_value_dyn d "operating_cash_flow" ["cash_flow"]
    let revenue ← extract_value_dyn d "revenue" ["income_statement"]
    let vq ← safe_div_dyn ocf revenue
    pure ⟨indicator, vq.map PyVal.num, none⟩
  else if indicator = "roe" then do
    let ni ← extract_value_dyn d "net_income" ["income_statement"]
    let se ← extract_value_dyn d "shareholders_equity" ["balance_sheet"]
    let vq ← safe_div_dyn ni se
    pure ⟨indicator, vq.map PyVal.num, none⟩
  else if indicator = "roa" then do
    let ni ← extract_value_dyn d "net_income" ["income_statement"]
    let ta ← extract_value_dyn d "total_assets" ["balance_sheet"]
    let vq ← safe_div_dyn ni ta
    pure ⟨indicator, vq.map PyVal.num, none⟩
  else if indicator = "pe_ratio" then do
    let price ← extract_value_dyn d "price" ["market"]
    let ni ← extract_value_dyn d "net_income" ["income_statement"]
    let sh ← extract_value_dyn d "shares_outstanding" ["market", "income_statement"]
    let eps ← safe_div_dyn ni sh
    let vq ←
      if eps = none ∨ eps = some 0 then pure none
      else safe_div_dyn price (eps.map PyVal.num)
    pure ⟨indicator, vq.map PyVal.num, none⟩
  else if indicator = "pb_ratio" then do
    let price ← extract_value_dyn d "price" ["market"]
    let se ← extract_value_dyn d "shareholders_equity" ["balance_sheet"]
    let sh ← extract_value_dyn d "shares_outstanding" ["market", "income_statement"]
    let bvps ← safe_div_dyn se sh
    let vq ←
      if bvps = none ∨ bvps = some 0 then pure none
      else safe_div_dyn price (bvps.map PyVal.num)
    pure ⟨indicator, vq.map PyVal.num, none⟩
  else if indicator = "dividend_yield" then do
    let dps ← extract_value_dyn d "dividends_per_share" ["income_statement", "market"]
    let price ← extract_value_dyn d "price" ["market"]
    let vq ← safe_div_dyn dps price
    pure ⟨indicator, vq.map PyVal.num, none⟩
  else pure ⟨indicator, none, some "Unknown indicator"⟩


/-! ### Branch-selection lemmas: `calculate_financial_metric` at each of the
literal indicator names reduces to the corresponding metric body. -/

lemma cfm_gross_margin (d : FinancialDataBundle) :
    calculate_financial_metric d "gross_margin" = ⟨"gross_margin", grossMarginValue d, none⟩ := rfl

lemma cfm_operating_margin (d : FinancialDataBundle) :
    calculate_financial_metric d "operating_margin" =
      ⟨"operating_margin", operatingMarginValue d, none⟩ := rfl

lemma cfm_net_profit_margin (d : FinancialDataBundle) :
    calculate_financial_metric d "net_profit_margin" =
      ⟨"net_profit_margin", netProfitMarginValue d, none⟩ := rfl

lemma cfm_ebitda (d : FinancialDataBundle) :
    calculate_financial_metric d "ebitda" = ⟨"ebitda", ebitdaValue d, none⟩ := rfl

lemma cfm_debt_to_equity (d : FinancialDataBundle) :
    calculate_financial_metric d "debt_to_equity" =
      ⟨"debt_to_equity", debtToEquityValue d, none⟩ := rfl

lemma cfm_current_ratio (d : FinancialDataBundle) :
    calculate_financial_metric d "current_ratio" =
      ⟨"current_ratio", currentRatioValue d, none⟩ := rfl

lemma cfm_quick_ratio (d : FinancialDataBundle) :
    calculate_financial_metric d "quick_ratio" = ⟨"quick_ratio", quickRatioValue d, none⟩ := rfl

lemma cfm_book_value_per_share (d : FinancialDataBundle) :
    calculate_financial_metric d "book_value_per_share" =
      ⟨"book_value_per_share", bookValuePerShareValue d, none⟩ := rfl

lemma cfm_free_cash_flow (d : FinancialDataBundle) :
    calculate_financial_metric d "free_cash_flow" =
      ⟨"free_cash_flow", freeCashFlowValue d, none⟩ := rfl

lemma cfm_cash_flow_margin (d : FinancialDataBundle) :
    calculate_financial_metric d "cash_flow_margin" =
      ⟨"cash_flow_margin", cashFlowMarginValue d, none⟩ := rfl

lemma cfm_roe (d : FinancialDataBundle) :
    calculate_financial_metric d "roe" = ⟨"roe", roeValue d, none⟩ := rfl

lemma cfm_roa (d : FinancialDataBundle) :
    calculate_financial_metric d "roa" = ⟨"roa", roaValue d, none⟩ := rfl

lemma cfm_pe_ratio (d : FinancialDataBundle) :
    calculate_financial_metric d "pe_ratio" = ⟨"pe_ratio", peRatioValue d, none⟩ := rfl

lemma cfm_pb_ratio (d : FinancialDataBundle) :
    calculate_financial_metric d "pb_ratio" = ⟨"pb_ratio", pbRatioValue d, none⟩ := rfl

lemma cfm_dividend_yield (d : FinancialDataBundle) :
    calculate_financial_metric d "dividend_yield" =
      ⟨"dividend_yield", dividendYieldValue d, none⟩ := rfl

/-! ### Basic facts about `safe_div` -/

lemma safe_div_none_left (b : Option ℚ) : safe_div none b = none := rfl

lemma safe_div_none_right (a : Option ℚ) : safe_div a none = none := by
  cases a <;> rfl

lemma safe_div_zero (a : Option ℚ) : safe_div a (some 0) = none := by
  cases a <;> simp [safe_div]

lemma rfm_gross_margin (d : FinancialDataBundle) :
    requiredFieldMissing d "gross_margin" =
      (missing d "revenue" ["income_statement"] ||
       missing d "cost_of_goods_sold" ["income_statement"]) := rfl

lemma rfm_operating_margin (d : FinancialDataBundle) :
    requiredFieldMissing d "operating_margin" =
      (missing d "revenue" ["income_statement"] ||
       missing d "operating_income" ["income_statement"]) := rfl

lemma rfm_net_profit_margin (d : FinancialDataBundle) :
    requiredFieldMissing d "net_profit_margin" =
      (missing d "revenue" ["income_statement"] ||
       missing d "net_income" ["income_statement"]) := rfl

lemma rfm_ebitda (d : FinancialDataBundle) :
    requiredFieldMissing d "ebitda" =
      (missing d "ebitda" ["income_statement"] &&
       (missing d "operating_income" ["income_statement"] ||
        missing d "depreciation" ["income_statement", "cash_flow"] ||
        missing d "amortization" ["income_statement", "cash_flow"])) := rfl

lemma rfm_debt_to_equity (d : FinancialDataBundle) :
    requiredFieldMissing d "debt_to_equity" =
      (missing d "total_liabilities" ["balance_sheet"] ||
       missing d "shareholders_equity" ["balance_sheet"]) := rfl

lemma rfm_current_ratio (d : FinancialDataBundle) :
    requiredFieldMissing d "current_ratio" =
      (missing d "current_assets" ["balance_sheet"] ||
       missing d "current_liabilities" ["balance_sheet"]) := rfl

lemma rfm_quick_ratio (d : FinancialDataBundle) :
    requiredFieldMissing d "quick_ratio" =
      (missing d "current_assets" ["balance_sheet"] ||
       missing d "inventory" ["balance_sheet"] ||
       missing d "current_liabilities" ["balance_sheet"]) := rfl

lemma rfm_book_value_per_share (d : FinancialDataBundle) :
    requiredFieldMissing d "book_value_per_share" =
      (missing d "shareholders_equity" ["balance_sheet"] ||
       missing d "shares_outstanding" ["market", "income_statement"]) := rfl

lemma rfm_free_cash_flow (d : FinancialDataBundle) :
    requiredFieldMissing d "free_cash_flow" =
      (missing d "operating_cash_flow" ["cash_flow"] ||
       missing d "capital_expenditures" ["cash_flow"]) := rfl

lemma rfm_cash_flow_margin (d : FinancialDataBundle) :
    requiredFieldMissing d "cash_flow_margin" =
      (missing d "operating_cash_flow" ["cash_flow"] ||
       missing d "revenue" ["income_statement"]) := rfl

lemma rfm_roe (d : FinancialDataBundle) :
    requiredFieldMissing d "roe" =
      (missing d "net_income" ["income_statement"] ||
       missing d "shareholders_equity" ["balance_sheet"]) := rfl

lemma rfm_roa (d : FinancialDataBundle) :
    requiredFieldMissing d "roa" =
      (missing d "net_income" ["income_statement"] ||
       missing d "total_assets" ["balance_sheet"]) := rfl

lemma rfm_pe_ratio (d : FinancialDataBundle) :
    requiredFieldMissing d "pe_ratio" =
      (missing d "price" ["market"] ||
       missing d "net_income" ["income_statement"] ||
       missing d "shares_outstanding" ["market", "income_statement"]) := rfl

lemma rfm_pb_ratio (d : FinancialDataBundle) :
    requiredFieldMissing d "pb_ratio" =
      (missing d "price" ["market"] ||
       missing d "shareholders_equity" ["balance_sheet"] ||
       missing d "shares_outstanding" ["market", "income_statement"]) := rfl

lemma rfm_dividend_yield (d : FinancialDataBundle) :
    requiredFieldMissing d "dividend_yield" =
      (missing d "dividends_per_share" ["income_statement", "market"] ||
       missing d "price" ["market"]) := rfl

lemma missing_eq_none {d : FinancialDataBundle} {key : String} {srcs : List String}
    (h : missing d key srcs = true) : extract_value d key srcs = none := by
  simpa [missing, Option.isNone_iff_eq_none] using h

/-- Claim C1: for every one of the 15 supported indicator names and every
FinancialDataBundle, if any required field of that indicator is absent from
every permitted source, `calculate_financial_metric` returns a result whose
value is `none` and whose error key is absent. -/
theorem required_missing_yields_null (ind : String) (d : FinancialDataBundle)
    (hmem : ind ∈ supportedIndicators)
    (hmiss : requiredFieldMissing d ind = true) :
    calculate_financial_metric d ind = ⟨ind, none, none⟩ := by
  simp only [supportedIndicators, List.mem_cons, List.not_mem_nil, or_false] at hmem
  rcases hmem with rfl | rfl | rfl | rfl | rfl | rfl | rfl | rfl | rfl | rfl | rfl | rfl |
    rfl | rfl | rfl
  · -- gross_margin
    rw [rfm_gross_margin, Bool.or_eq_true] at hmiss
    rw [cfm_gross_margin]
    rcases hmiss with h | h
    · simp [grossMarginValue, missing_eq_none h]
    · rcases h2 : extract_value d "revenue" ["income_statement"] with _ | r <;>
        simp [grossMarginValue, h2, missing_eq_none h]
  · -- operating_margin
    rw [rfm_operating_margin, Bool.or_eq_true] at hmiss
    rw [cfm_operating_margin]
    rcases hmiss with h | h
    · simp [operatingMarginValue, missing_eq_none h, safe_div_none_right]
    · simp [operatingMarginValue, missing_eq_none h, safe_div_none_left]
  · -- net_profit_margin
    rw [rfm_net_profit_margin, Bool.or_eq_true] at hmiss
    rw [cfm_net_profit_margin]
    rcases hmiss with h | h
    · simp [netProfitMarginValue, missing_eq_none h, safe_div_none_right]
    · simp [netProfitMarginValue, missing_eq_none h, safe_div_none_left]
  · -- ebitda
    rw [rfm_ebitda, Bool.and_eq_true] at hmiss
    obtain ⟨he, hrest⟩ := hmiss
    simp only [Bool.or_eq_true, or_assoc] at hrest
    rw [cfm_ebitda]
    rcases hrest with h | h | h
    · simp [ebitdaValue, missing_eq_none he, missing_eq_none h]
    · rcases h2 : extract_value d "operating_income" ["income_statement"] with _ | a <;>
        simp [ebitdaValue, missing_eq_none he, h2, missing_eq_none h]
    · rcases h2 : extract_value d "operating_income" ["income_statement"] with _ | a <;>
      rcases h3 : extract_value d "depreciation" ["income_statement", "cash_flow"] with _ | b <;>
        simp [ebitdaValue, missing_eq_none he, h2, h3, missing_eq_none h]
  · -- debt_to_equity
    rw [rfm_debt_to_equity, Bool.or_eq_true] at hmiss
    rw [cfm_debt_to_equity]
    rcases hmiss with h | h
    · simp [debtToEquityValue, missing_eq_none h, safe_div_none_left]
    · simp [debtToEquityValue, missing_eq_none h, safe_div_none_right]
  · -- current_ratio
    rw [rfm_current_ratio, Bool.or_eq_true] at hmiss
    rw [cfm_current_ratio]
    rcases hmiss with h | h
    · simp [currentRatioValue, missing_eq_none h, safe_div_none_left]
    · simp [currentRatioValue, missing_eq_none h, safe_div_none_right]
  · -- quick_ratio
    rw [rfm_quick_ratio] at hmiss
    simp only [Bool.or_eq_true, or_assoc] at hmiss
    rw [cfm_quick_ratio]
    rcases hmiss with h | h | h
    · simp [quickRatioValue, missing_eq_none h]
    · rcases h2 : extract_value d "current_assets" ["balance_sheet"] with _ | a <;>
        simp [quickRatioValue, h2, missing_eq_none h]
    · rcases h2 : extract_value d "current_assets" ["balance_sheet"] with _ | a <;>
      rcases h3 : extract_value d "inventory" ["balance_sheet"] with _ | b <;>
        simp [quickRatioValue, h2, h3, missing_eq_none h]
  · -- book_value_per_share
    rw [rfm_book_value_per_share, Bool.or_eq_true] at hmiss
    rw [cfm_book_value_per_share]
    rcases hmiss with h | h
    · simp [bookValuePerShareValue, missing_eq_none h, safe_div_none_left]
    · simp [bookValuePerShareValue, missing_eq_none h, safe_div_none_right]
  · -- free_cash_flow
    rw [rfm_free_cash_flow, Bool.or_eq_true] at hmiss
    rw [cfm_free_cash_flow]
    rcases hmiss with h | h
    · simp [freeCashFlowValue, missing_eq_none h]
    · rcases h2 : extract_value d "operating_cash_flow" ["cash_flow"] with _ | a <;>
        simp [freeCashFlowValue, h2, missing_eq_none h]
  · -- cash_flow_margin
    rw [rfm_cash_flow_margin, Bool.or_eq_true] at hmiss
    rw [cfm_cash_flow_margin]
    rcases hmiss with h | h
    · simp [cashFlowMarginValue, missing_eq_none h, safe_div_none_left]
    · simp [cashFlowMarginValue, missing_eq_none h, safe_div_none_right]
  · -- roe
    rw [rfm_roe, Bool.or_eq_true] at hmiss
    rw [cfm_roe]
    rcases hmiss with h | h
    · simp [roeValue, missing_eq_none h, safe_div_none_left]
    · simp [roeValue, missing_eq_none h, safe_div_none_right]
  · -- roa
    rw [rfm_roa, Bool.or_eq_true] at hmiss
    rw [cfm_roa]
    rcases hmiss with h | h
    · simp [roaValue, missing_eq_none h, safe_div_none_left]
    · simp [roaValue, missing_eq_none h, safe_div_none_right]
  · -- pe_ratio
    rw [rfm_pe_ratio] at hmiss
    simp only [Bool.or_eq_true, or_assoc] at hmiss
    rw [cfm_pe_ratio]
    rcases hmiss with h | h | h
    · -- price missing: value is none whichever branch of the eps guard is taken
      rcases h2 : epsOf d with _ | e
      · simp [peRatioValue, h2]
      · simp only [peRatioValue, h2, missing_eq_none h, safe_div_none_left,
          MetricResult.mk.injEq, ite_self, and_self]
    · simp [peRatioValue, epsOf, missing_eq_none h, safe_div_none_left]
    · simp [peRatioValue, epsOf, missing_eq_none h, safe_div_none_right]
  · -- pb_ratio
    rw [rfm_pb_ratio] at hmiss
    simp only [Bool.or_eq_true, or_assoc] at hmiss
    rw [cfm_pb_ratio]
    rcases hmiss with h | h | h
    · rcases h2 : bvpsOf d with _ | e
      · simp [pbRatioValue, h2]
      · simp only [pbRatioValue, h2, missing_eq_none h, safe_div_none_left,
          MetricResult.mk.injEq, ite_self, and_self]
    · simp [pbRatioValue, bvpsOf, missing_eq_none h, safe_div_none_left]
    · simp [pbRatioValue, bvpsOf, missing_eq_none h, safe_div_none_right]
  · -- dividend_yield
    rw [rfm_dividend_yield, Bool.or_eq_true] at hmiss
    rw [cfm_dividend_yield]
    rcases hmiss with h | h
    · simp [dividendYieldValue, missing_eq_none h, safe_div_none_left]
    · simp [dividendYieldValue, missing_eq_none h, safe_div_none_right]

/-- Witness for C1: `current_ratio` on the empty bundle, where both required
balance-sheet fields are absent. -/
theorem required_missing_yields_null_witness :
    ("current_ratio" ∈ supportedIndicators) ∧
    (requiredFieldMissing ([] : FinancialDataBundle) "current_ratio" = true) ∧
    calculate_financial_metric [] "current_ratio" = ⟨"current_ratio", none, none⟩ :=
  ⟨by decide, by decide,
   required_missing_yields_null "current_ratio" [] (by decide) (by decide)⟩

lemma den_gross_margin (d : FinancialDataBundle) :
    denominatorOf d "gross_margin" = some (extract_value d "revenue" ["income_statement"]) := rfl

lemma den_operating_margin (d : FinancialDataBundle) :
    denominatorOf d "operating_margin" =
      some (extract_value d "revenue" ["income_statement"]) := rfl

lemma den_net_profit_margin (d : FinancialDataBundle) :
    denominatorOf d "net_profit_margin" =
      some (extract_value d "revenue" ["income_statement"]) := rfl

lemma den_ebitda (d : FinancialDataBundle) : denominatorOf d "ebitda" = none := rfl

lemma den_debt_to_equity (d : FinancialDataBundle) :
    denominatorOf d "debt_to_equity" =
      some (extract_value d "shareholders_equity" ["balance_sheet"]) := rfl

lemma den_current_ratio (d : FinancialDataBundle) :
    denominatorOf d "current_ratio" =
      some (extract_value d "current_liabilities" ["balance_sheet"]) := rfl

lemma den_quick_ratio (d : FinancialDataBundle) :
    denominatorOf d "quick_ratio" =
      some (extract_value d "current_liabilities" ["balance_sheet"]) := rfl

lemma den_book_value_per_share (d : FinancialDataBundle) :
    denominatorOf d "book_value_per_share" =
      some (extract_value d "shares_outstanding" ["market", "income_statement"]) := rfl

lemma den_free_cash_flow (d : FinancialDataBundle) :
    denominatorOf d "free_cash_flow" = none := rfl

lemma den_cash_flow_margin (d : FinancialDataBundle) :
    denominatorOf d "cash_flow_margin" =
      some (extract_value d "revenue" ["income_statement"]) := rfl

lemma den_roe (d : FinancialDataBundle) :
    denominatorOf d "roe" = some (extract_value d "shareholders_equity" ["balance_sheet"]) := rfl

lemma den_roa (d : FinancialDataBundle) :
    denominatorOf d "roa" = some (extract_value d "total_assets" ["balance_sheet"]) := rfl

lemma den_pe_ratio (d : FinancialDataBundle) : denominatorOf d "pe_ratio" = some (epsOf d) := rfl

lemma den_pb_ratio (d : FinancialDataBundle) : denominatorOf d "pb_ratio" = some (bvpsOf d) := rfl

lemma den_dividend_yield (d : FinancialDataBundle) :
    denominatorOf d "dividend_yield" = some (extract_value d "price" ["market"]) := rfl

/-- Claim C2: for every supported metric and bundle, whenever the denominator
of that metric's formula is null or zero, the computed value is `none` — the
safe-division rule applies uniformly (the embedding is total, so no exception
can arise, and the whole value short-circuits to `none`, never a partial
result). -/
theorem null_or_zero_denominator_yields_null (ind : String) (d : FinancialDataBundle)
    (dv : Option ℚ) (hmem : ind ∈ supportedIndicators)
    (hden : denominatorOf d ind = some dv) (hdv : dv = none ∨ dv = some 0) :
    (calculate_financial_metric d ind).value = none := by
  simp only [supportedIndicators, List.mem_cons, List.not_mem_nil, or_false] at hmem
  rcases hmem with rfl | rfl | rfl | rfl | rfl | rfl | rfl | rfl | rfl | rfl | rfl | rfl |
    rfl | rfl | rfl
  · -- gross_margin
    rw [den_gross_margin, Option.some_inj] at hden
    rw [cfm_gross_margin]
    rcases hdv with rfl | rfl
    · rcases h2 : extract_value d "cost_of_goods_sold" ["income_statement"] with _ | c <;>
        simp [grossMarginValue, hden, h2]
    · rcases h2 : extract_value d "cost_of_goods_sold" ["income_statement"] with _ | c <;>
        simp [grossMarginValue, hden, h2, safe_div]
  · -- operating_margin
    rw [den_operating_margin, Option.some_inj] at hden
    rw [cfm_operating_margin]
    rcases hdv with rfl | rfl <;>
      simp [operatingMarginValue, hden, safe_div_none_right, safe_div_zero]
  · -- net_profit_margin
    rw [den_net_profit_margin, Option.some_inj] at hden
    rw [cfm_net_profit_margin]
    rcases hdv with rfl | rfl <;>
      simp [netProfitMarginValue, hden, safe_div_none_right, safe_div_zero]
  · -- ebitda: no denominator, hypothesis is contradictory
    rw [den_ebitda] at hden
    exact absurd hden (by simp)
  · -- debt_to_equity
    rw [den_debt_to_equity, Option.some_inj] at hden
    rw [cfm_debt_to_equity]
    rcases hdv with rfl | rfl <;>
      simp [debtToEquityValue, hden, safe_div_none_right, safe_div_zero]
  · -- current_ratio
    rw [den_current_ratio, Option.some_inj] at hden
    rw [cfm_current_ratio]
    rcases hdv with rfl | rfl <;>
      simp [currentRatioValue, hden, safe_div_none_right, safe_div_zero]
  · -- quick_ratio
    rw [den_quick_ratio, Option.some_inj] at hden
    rw [cfm_quick_ratio]
    rcases hdv with rfl | rfl <;>
    rcases h2 : extract_value d "current_assets" ["balance_sheet"] with _ | a <;>
    rcases h3 : extract_value d "inventory" ["balance_sheet"] with _ | b <;>
      simp [quickRatioValue, hden, h2, h3, safe_div]
  · -- book_value_per_share
    rw [den_book_value_per_share, Option.some_inj] at hden
    rw [cfm_book_value_per_share]
    rcases hdv with rfl | rfl <;>
      simp [bookValuePerShareValue, hden, safe_div_none_right, safe_div_zero]
  · -- free_cash_flow: no denominator, hypothesis is contradictory
    rw [den_free_cash_flow] at hden
    exact absurd hden (by simp)
  · -- cash_flow_margin
    rw [den_cash_flow_margin, Option.some_inj] at hden
    rw [cfm_cash_flow_margin]
    rcases hdv with rfl | rfl <;>
      simp [cashFlowMarginValue, hden, safe_div_none_right, safe_div_zero]
  · -- roe
    rw [den_roe, Option.some_inj] at hden
    rw [cfm_roe]
    rcases hdv with rfl | rfl <;>
      simp [roeValue, hden, safe_div_none_right, safe_div_zero]
  · -- roa
    rw [den_roa, Option.some_inj] at hden
    rw [cfm_roa]
    rcases hdv with rfl | rfl <;>
      simp [roaValue, hden, safe_div_none_right, safe_div_zero]
  · -- pe_ratio: the guard on eps makes the value none directly
    rw [den_pe_ratio, Option.some_inj] at hden
    rw [cfm_pe_ratio]
    rcases hdv with rfl | rfl <;> simp [peRatioValue, hden]
  · -- pb_ratio
    rw [den_pb_ratio, Option.some_inj] at hden
    rw [cfm_pb_ratio]
    rcases hdv with rfl | rfl <;> simp [pbRatioValue, hden]
  · -- dividend_yield
    rw [den_dividend_yield, Option.some_inj] at hden
    rw [cfm_dividend_yield]
    rcases hdv with rfl | rfl <;>
      simp [dividendYieldValue, hden, safe_div_none_right, safe_div_zero]

/-- Witness for C2: `current_ratio` with `current_liabilities = 0` gives a
null value and no division-by-zero fault. -/
theorem null_or_zero_denominator_yields_null_witness :
    ("current_ratio" ∈ supportedIndicators) ∧
    (denominatorOf [("balance_sheet", [("current_assets", 5), ("current_liabilities", 0)])]
        "current_ratio" = some (some 0)) ∧
    (calculate_financial_metric
        [("balance_sheet", [("current_assets", 5), ("current_liabilities", 0)])]
        "current_ratio").value = none :=
  ⟨by decide, by decide,
   null_or_zero_denominator_yields_null "current_ratio"
     [("balance_sheet", [("current_assets", 5), ("current_liabilities", 0)])]
     (some 0) (by decide) (by decide) (Or.inr rfl)⟩

/-! ## Claim C4: unknown indicator names -/

/-- Claim C4: for every bundle and every indicator name outside the supported
set, `calculate_financial_metric` returns exactly the result with the given
name, a null value, and error "Unknown indicator". -/
theorem unknown_indicator_result (d : FinancialDataBundle) (ind : String)
    (h : ind ∉ supportedIndicators) :
    calculate_financial_metric d ind = ⟨ind, none, some "Unknown indicator"⟩ := by
  simp only [supportedIndicators, List.mem_cons, List.not_mem_nil, or_false, not_or] at h
  obtain ⟨h1, h2, h3, h4, h5, h6, h7, h8, h9, h10, h11, h12, h13, h14, h15⟩ := h
  simp only [calculate_financial_metric, if_neg h1, if_neg h2, if_neg h3, if_neg h4,
    if_neg h5, if_neg h6, if_neg h7, if_neg h8, if_neg h9, if_neg h10, if_neg h11,
    if_neg h12, if_neg h13, if_neg h14, if_neg h15]

/-- Witness for C4: the name `unknown_xyz` from the spec example. -/
theorem unknown_indicator_result_witness :
    ("unknown_xyz" ∉ supportedIndicators) ∧
    calculate_financial_metric [] "unknown_xyz" =
      ⟨"unknown_xyz", none, some "Unknown indicator"⟩ :=
  ⟨by decide, unknown_indicator_result [] "unknown_xyz" (by decide)⟩

/-! ## Claim C5: source precedence in field lookup -/

/-- Claim C5: `extract_value` follows the given ordered source list and the
first source containing the field wins: if the earliest source satisfying
"contains the key" (computed by `List.find?`) is `s`, the extracted value is
`financial_data[s][key]`; if no listed source contains the key, the result is
`none`. -/
theorem extract_value_first_source_wins (d : FinancialDataBundle) (key : String)
    (srcs : List String) :
    (∀ s, srcs.find? (fun t => (fieldAt d t key).isSome) = some s →
      extract_value d key srcs = fieldAt d s key) ∧
    (srcs.find? (fun t => (fieldAt d t key).isSome) = none →
      extract_value d key srcs = none) := by
  induction srcs with
  | nil => exact ⟨fun s hs => by simp at hs, fun _ => rfl⟩
  | cons s rest ih =>
    constructor
    · intro t ht
      rcases hf : fieldAt d s key with _ | v
      · rw [List.find?_cons_of_neg _ (by simp [hf])] at ht
        have := ih.1 t ht
        simpa [extract_value, hf] using this
      · rw [List.find?_cons_of_pos _ (by simp [hf])] at ht
        obtain rfl := Option.some_inj.mp ht
        simp [extract_value, hf]
    · intro hn
      rcases hf : fieldAt d s key with _ | v
      · rw [List.find?_cons_of_neg _ (by simp [hf])] at hn
        have := ih.2 hn
        simpa [extract_value, hf] using this
      · rw [List.find?_cons_of_pos _ (by simp [hf])] at hn
        simp at hn

/-- Witness for C5: `shares_outstanding` is taken from `market` before
`income_statement`. -/
theorem extract_value_first_source_wins_witness :
    (List.find? (fun t => (fieldAt sharesBundle t "shares_outstanding").isSome)
        ["market", "income_statement"] = some "market") ∧
    extract_value sharesBundle "shares_outstanding" ["market", "income_statement"] =
      fieldAt sharesBundle "market" "shares_outstanding" ∧
    extract_value sharesBundle "shares_outstanding" ["market", "income_statement"] = some 100 :=
  ⟨by decide,
   (extract_value_first_source_wins sharesBundle "shares_outstanding"
       ["market", "income_statement"]).1 "market" (by decide),
   by decide⟩

/-! ## Claims about the technical indicator engine -/

lemma cti_sma (xs : List ℚ) (w : ℕ) :
    calculate_technical_indicators xs "sma" w = { sma := some (rollingMean xs w) } := rfl

lemma cti_ema (xs : List ℚ) (w : ℕ) :
    calculate_technical_indicators xs "ema" w = { ema := some (emaList xs w) } := rfl

lemma cti_rsi (xs : List ℚ) (w : ℕ) :
    calculate_technical_indicators xs "rsi" w = { rsi := some (rsiList xs w) } := rfl

lemma rollingMean_length (xs : List ℚ) (w : ℕ) : (rollingMean xs w).length = xs.length := by
  simp [rollingMean]

lemma rollingMean_getElem? (xs : List ℚ) (w i : ℕ) (h : i < xs.length) :
    (rollingMean xs w)[i]? =
      some (if w ≤ i + 1 then some (((xs.drop (i + 1 - w)).take w).sum / w) else none) := by
  simp [rollingMean, List.getElem?_range h]

/-- Claim C6: for every price series and window `w ≥ 1`, the `sma` output has
the length of the input, its first `w-1` entries are the undefined sentinel,
and every entry at index `i ≥ w-1` is the arithmetic mean of the trailing
`w`-point slice `series[i-w+1..i]`. -/
theorem sma_spec (xs : List ℚ) (w : ℕ) (h : 1 ≤ w) :
    ∃ l, calculate_technical_indicators xs "sma" w = { sma := some l } ∧
      l.length = xs.length ∧
      (∀ i, i < w - 1 → i < xs.length → l[i]? = some none) ∧
      (∀ i, w - 1 ≤ i → i < xs.length →
        l[i]? = some (some (((xs.take (i + 1)).drop (i + 1 - w)).sum / w))) := by
  refine ⟨rollingMean xs w, rfl, rollingMean_length xs w, ?_, ?_⟩
  · intro i hi hilen
    have hc : ¬ (w ≤ i + 1) := by omega
    rw [rollingMean_getElem? xs w i hilen, if_neg hc]
  · intro i hw hilen
    have hc : w ≤ i + 1 := by omega
    rw [rollingMean_getElem? xs w i hilen, if_pos hc]
    have harith : i + 1 - w + w = i + 1 := by omega
    have hsl : (xs.drop (i + 1 - w)).take w = (xs.take (i + 1)).drop (i + 1 - w) := by
      rw [List.take_drop, harith]
    rw [hsl]

/-- Witness for C6: the spec example `computeIndicator([1,2,3,4,5], "sma", 3)`
gives two undefined entries and then the trailing means 2, 3, 4. -/
theorem sma_spec_witness :
    (1 ≤ 3) ∧
    (∃ l, calculate_technical_indicators ([1, 2, 3, 4, 5] : List ℚ) "sma" 3 = { sma := some l } ∧
      l.length = ([1, 2, 3, 4, 5] : List ℚ).length ∧
      (∀ i, i < 3 - 1 → i < ([1, 2, 3, 4, 5] : List ℚ).length → l[i]? = some none) ∧
      (∀ i, 3 - 1 ≤ i → i < ([1, 2, 3, 4, 5] : List ℚ).length →
        l[i]? = some (some (((([1, 2, 3, 4, 5] : List ℚ).take (i + 1)).drop (i + 1 - 3)).sum / 3)))) ∧
    (calculate_technical_indicators ([1, 2, 3, 4, 5] : List ℚ) "sma" 3).sma =
      some [none, none, some 2, some 3, some 4] :=
  ⟨by decide, sma_spec [1, 2, 3, 4, 5] 3 (by decide), by
    rw [cti_sma]
    norm_num [rollingMean, List.range_succ]⟩

lemma emaFrom_length (α : ℚ) (ys : List ℚ) : ∀ p : ℚ, (emaFrom α p ys).length = ys.length := by
  induction ys with
  | nil => intro p; rfl
  | cons y ys ih => intro p; simp [emaFrom, ih]

lemma emaFrom_cons_getElem? (α : ℚ) :
    ∀ (ys : List ℚ) (p : ℚ) (i : ℕ) (x q : ℚ),
      ys[i]? = some x → (p :: emaFrom α p ys)[i]? = some q →
      (p :: emaFrom α p ys)[i + 1]? = some (α * x + (1 - α) * q) := by
  intro ys
  induction ys with
  | nil => intro p i x q hx _; simp at hx
  | cons y ys ih =>
    intro p i x q hx hq
    match i with
    | 0 =>
      simp only [List.getElem?_cons_zero, Option.some_inj] at hx hq
      subst hx; subst hq
      simp [emaFrom]
    | j + 1 =>
      simp only [List.getElem?_cons_succ] at hx hq ⊢
      simp only [emaFrom] at hq ⊢
      exact ih (α * y + (1 - α) * p) j x q hx hq

/-- Claim C7: for every non-empty series and window `w ≥ 1`, the `ema` output
is a total (everywhere-defined) sequence of the input's length satisfying
`ema[0] = series[0]` and `ema[i] = α·series[i] + (1-α)·ema[i-1]` with
`α = 2/(w+1)`. -/
theorem ema_spec (xs : List ℚ) (w : ℕ) (h1 : 1 ≤ w) (h2 : xs ≠ []) :
    ∃ l, calculate_technical_indicators xs "ema" w = { ema := some l } ∧
      l.length = xs.length ∧
      l[0]? = xs[0]? ∧
      (∀ i x q, xs[i + 1]? = some x → l[i]? = some q →
        l[i + 1]? = some ((2 / ((w : ℚ) + 1)) * x + (1 - 2 / ((w : ℚ) + 1)) * q)) := by
  match xs with
  | [] => exact absurd rfl h2
  | x :: rest =>
    refine ⟨emaList (x :: rest) w, rfl, ?_, by simp [emaList], ?_⟩
    · simp [emaList, emaFrom_length]
    · intro i x' q hx hq
      simp only [List.getElem?_cons_succ] at hx
      simp only [emaList] at hq ⊢
      exact emaFrom_cons_getElem? (2 / ((w : ℚ) + 1)) rest x i x' q hx hq

/-- Witness for C7: `ema([1,2,4], window=3)` has `α = 1/2` and the values
`[1, 3/2, 11/4]`. -/
theorem ema_spec_witness :
    (1 ≤ 3) ∧ (([1, 2, 4] : List ℚ) ≠ []) ∧
    (∃ l, calculate_technical_indicators ([1, 2, 4] : List ℚ) "ema" 3 = { ema := some l } ∧
      l.length = ([1, 2, 4] : List ℚ).length ∧
      l[0]? = ([1, 2, 4] : List ℚ)[0]? ∧
      (∀ i x q, ([1, 2, 4] : List ℚ)[i + 1]? = some x → l[i]? = some q →
        l[i + 1]? = some ((2 / ((3 : ℚ) + 1)) * x + (1 - 2 / ((3 : ℚ) + 1)) * q))) ∧
    (calculate_technical_indicators ([1, 2, 4] : List ℚ) "ema" 3).ema =
      some [1, 3/2, 11/4] :=
  ⟨by decide, by decide, ema_spec [1, 2, 4] 3 (by decide) (by decide), by
    rw [cti_ema]
    norm_num [emaList, emaFrom]⟩

/-- Claim C10: the `macd` branch uses the fixed spans 12, 26 and 9 and never
reads the `window` argument, so any two window values give identical results
(`macd` and `macd_signal` depend only on the series). -/
theorem macd_ignores_window (xs : List ℚ) (w1 w2 : ℕ) :
    calculate_technical_indicators xs "macd" w1 =
      calculate_technical_indicators xs "macd" w2 := rfl

/-- Amended claim C9: at every index where the trailing-window average loss is
0 and the average gain is a nonzero number, the RSI value is exactly 100 (the
`rs → ∞` edge case is a defined value, not an error). When the average gain
is also 0 the division is `0/0` and the entry is NaN, not 100 (see the
counterexample). -/
theorem rsi_avg_loss_zero (xs : List ℚ) (w i : ℕ) (g : ℚ)
    (hg : (rollingMean (gainSeries xs) w)[i]? = some (some g)) (hgne : g ≠ 0)
    (hl : (rollingMean (lossSeries xs) w)[i]? = some (some 0)) :
    ∃ l, calculate_technical_indicators xs "rsi" w = { rsi := some l } ∧
      l[i]? = some (PFloat.num 100) := by
  refine ⟨rsiList xs w, rfl, ?_⟩
  simp only [rsiList, List.getElem?_map, List.getElem?_zipWith, hg, hl]
  have hod : optDiv (some g) (some 0) = (if 0 < g then PFloat.inf else PFloat.ninf) := by
    simp [optDiv, PFloat.div, hgne]
  by_cases hpos : 0 < g
  · simp [hod, hpos, PFloat.add, PFloat.div, PFloat.sub]
  · simp [hod, hpos, PFloat.add, PFloat.div, PFloat.sub]

/-- Witness for the amended C9: on `[1,2,3]` with window 2 the average loss at
index 1 is 0, the average gain is 1/2, and the RSI entry is 100. -/
theorem rsi_avg_loss_zero_witness :
    ((rollingMean (gainSeries [1, 2, 3]) 2)[1]? = some (some (1/2))) ∧
    ((1 : ℚ)/2 ≠ 0) ∧
    ((rollingMean (lossSeries [1, 2, 3]) 2)[1]? = some (some 0)) ∧
    (∃ l, calculate_technical_indicators ([1, 2, 3] : List ℚ) "rsi" 2 = { rsi := some l } ∧
      l[1]? = some (PFloat.num 100)) :=
  ⟨by norm_num [gainSeries, deltaList, rollingMean, List.range_succ],
   by norm_num,
   by norm_num [lossSeries, deltaList, rollingMean, List.range_succ],
   rsi_avg_loss_zero [1, 2, 3] 2 1 (1/2)
     (by norm_num [gainSeries, deltaList, rollingMean, List.range_succ])
     (by norm_num)
     (by norm_num [lossSeries, deltaList, rollingMean, List.range_succ])⟩

/-- Counterexample to C9 as stated: on the constant series `[1,1,1]` with
window 2, the average loss at index 1 is 0, yet the RSI entry there is NaN
(from the `0/0` average-gain/average-loss division), not 100 — an undefined
entry at an index where the claim requires the value 100. -/
theorem rsi_claim_counterexample :
    ((rollingMean (lossSeries [1, 1, 1]) 2)[1]? = some (some 0)) ∧
    ((calculate_technical_indicators ([1, 1, 1] : List ℚ) "rsi" 2).rsi =
      some [PFloat.nan, PFloat.nan, PFloat.nan]) ∧
    PFloat.nan ≠ PFloat.num 100 := by
  refine ⟨?_, ?_, by decide⟩
  · norm_num [lossSeries, deltaList, rollingMean, List.range_succ]
  · rw [cti_rsi]
    norm_num [rsiList, rollingMean, gainSeries, lossSeries, deltaList, optDiv,
      PFloat.div, PFloat.add, PFloat.sub, List.range_succ]

/-! ## Claim C8: growth rates -/

lemma getElem?_tail' (series : List ℚ) (j : ℕ) : series.tail[j]? = series[j + 1]? := by
  cases series <;> simp

/-- Claim C8: period growth at index `i ≥ 1` is
`(series[i] - series[i-1]) / abs(series[i-1])`, and `none` (not infinity, not
an error) when `series[i-1] = 0`; the annualized rate is
`(series[last]/series[0])^(1/(n-1)) - 1` exactly when `n > 1` and
`series[0] ≠ 0`, else `none`. -/
theorem growth_rates_spec (series : List ℚ) :
    (∀ i, 1 ≤ i → i < series.length →
      (calculate_growth_rates series).period_growth_rates[i - 1]? =
        some (if series.getD (i - 1) 0 = 0 then none
          else some ((series.getD i 0 - series.getD (i - 1) 0) / |series.getD (i - 1) 0|))) ∧
    ((calculate_growth_rates series).annualized_growth_rate =
      if 1 < series.length ∧ series.getD 0 0 ≠ 0 then
        some (((series.getLastD 0 / series.getD 0 0 : ℚ) : ℝ) ^
          ((1 : ℝ) / ((series.length : ℝ) - 1)) - 1)
      else none) := by
  constructor
  · intro i h1 h2
    have hprev : series[i - 1]? = some (series.getD (i - 1) 0) := by
      have hlt : i - 1 < series.length := by omega
      simp [List.getElem?_eq_getElem hlt, List.getD_eq_getElem?_getD]
    have hcurr : series[i]? = some (series.getD i 0) := by
      simp [List.getElem?_eq_getElem h2, List.getD_eq_getElem?_getD]
    have htail : series.tail[i - 1]? = some (series.getD i 0) := by
      rw [getElem?_tail']
      have : i - 1 + 1 = i := by omega
      rw [this, hcurr]
    show (periodGrowthRates series)[i - 1]? = _
    rw [periodGrowthRates, List.getElem?_zipWith, hprev, htail]
    by_cases hz : series.getD (i - 1) 0 = 0 <;> simp [hz]
  · show annualizedGrowthRate series = _
    rfl

/-- Witness for C8: `growthRates([100, 110, 99])` has period rates
`[0.1, -0.1]` and annualized rate `(99/100)^(1/2) - 1`. -/
theorem growth_rates_spec_witness :
    (1 ≤ 1) ∧ (1 < ([100, 110, 99] : List ℚ).length) ∧
    ((calculate_growth_rates [100, 110, 99]).period_growth_rates[1 - 1]? =
      some (if ([100, 110, 99] : List ℚ).getD 0 0 = 0 then none
        else some ((([100, 110, 99] : List ℚ).getD 1 0 - ([100, 110, 99] : List ℚ).getD 0 0) /
          |([100, 110, 99] : List ℚ).getD 0 0|))) ∧
    ((calculate_growth_rates [100, 110, 99]).period_growth_rates =
      [some (1/10), some (-1/10)]) ∧
    ((calculate_growth_rates [100, 110, 99]).annualized_growth_rate =
      some ((99/100 : ℝ) ^ ((1 : ℝ) / 2) - 1)) :=
  ⟨le_refl 1, by norm_num,
   (growth_rates_spec [100, 110, 99]).1 1 (le_refl 1) (by norm_num),
   by norm_num [calculate_growth_rates, periodGrowthRates, abs],
   by
    rw [(growth_rates_spec [100, 110, 99]).2]
    norm_num [List.getLastD]⟩

/-! ## Claim C3: exception behaviour on malformed shapes -/

/-- Claim C3 (code bug): on the malformed bundle
`{"income_statement": 3}` — the source is a number, not a mapping — the
metric resolver's very first lookup `key in financial_data[src]` raises a
`TypeError`, and with no `try/except` in `calculate_financial_metric` (nor in
its caller) the exception escapes the function rather than being surfaced as
a structured error result. -/
theorem resolver_uncaught_typeerror :
    calculate_financial_metric_dyn [("income_statement", PyVal.num 3)] "gross_margin" =
      Except.error "TypeError" := rfl
